import Mathlib

/-!
Shallow embedding of the AI File Bridge MCP server
(`ai_file_bridge_server.py`, `excel_reader.py`, `word_reader.py`).

Python dictionaries that flow through the server are modelled as Lean
structures; Python exceptions as an `Except PyExn` layer; the external
document codecs (openpyxl, xlrd, python-docx) as inputs that either
deliver a parsed document value or fail with a message.  Insertion-order
Python dicts used as maps (formulas, formatting) are modelled as
association lists in insertion order.
-/

/-- ASCII whitespace stripped by Python's `str.strip()`. -/
def isPySpace (c : Char) : Bool :=
  c == ' ' || c == '\t' || c == '\n' || c == '\r' || c == '\x0b' || c == '\x0c'

/-- Python `str.strip()` (ASCII whitespace; the model keeps to the ASCII set). -/
def pyStrip (s : String) : String :=
  String.mk (((s.data.dropWhile isPySpace).reverse.dropWhile isPySpace).reverse)

/-- Lower-case one ASCII character, as Python `str.lower()` does. -/
def charLower (c : Char) : Char :=
  if 'A' ≤ c && c ≤ 'Z' then Char.ofNat (c.toNat + 32) else c

/-- Python `str.lower()` (ASCII range). -/
def pyLower (s : String) : String := String.mk (s.data.map charLower)

/-- Truthiness test `bool(s)` for a string: non-empty strings are truthy. -/
def nonBlank (s : String) : Bool := pyStrip s != ""

/-- Python falsiness of an optional string argument: `not x` is true for
`None` and for the empty string. -/
def argFalsy (o : Option String) : Bool := o.getD "" == ""

/-- `f"{x}"` applied to an optional string (`None` prints as `"None"`). -/
def pyShowOpt : Option String → String
  | Option.none => "None"
  | some s => s

/-- Scalar values stored in spreadsheet cells / carried in JSON payloads. -/
inductive PyVal
  | none
  | str (s : String)
  | int (n : Int)
  | bool (b : Bool)
  | datetime (iso : String)
  deriving DecidableEq, Repr

/-- Python `str(v)` on a cell value (only the cases the model carries). -/
def pyStr : PyVal → String
  | PyVal.none => "None"
  | PyVal.str s => s
  | PyVal.int n => toString n
  | PyVal.bool b => if b then "True" else "False"
  | PyVal.datetime iso => iso

/-- Python `type(v).__name__`. -/
def pyTypeName : PyVal → String
  | PyVal.none => "NoneType"
  | PyVal.str _ => "str"
  | PyVal.int _ => "int"
  | PyVal.bool _ => "bool"
  | PyVal.datetime _ => "datetime"

/-- The exceptions the server code raises itself. -/
inductive PyExn
  | fileNotFound (msg : String)
  | valueError (msg : String)
  deriving DecidableEq, Repr

/-- Python `str(e)` on an exception: its message. -/
def PyExn.str : PyExn → String
  | PyExn.fileNotFound m => m
  | PyExn.valueError m => m

/-- What `Path(file_path)` reveals about a path: `path.exists()` and
`path.suffix`.  `str(path)` is taken to be the original string. -/
structure PathInfo where
  onDisk : Bool
  suffix : String
  deriving DecidableEq, Repr

namespace Docx

/-- A run inside a docx paragraph, as delivered by the codec. -/
structure Run where
  text : String
  bold : Option Bool
  italic : Option Bool
  underline : Option Bool
  deriving DecidableEq, Repr

/-- A docx paragraph, as delivered by the codec: `para.style` may be unset
(`styleName = none`); `para.alignment` is carried already stringified. -/
structure Paragraph where
  text : String
  styleName : Option String
  alignment : Option String
  runs : List Run
  deriving DecidableEq, Repr

/-- A parsed docx document: paragraph sequence and tables (each table a
list of rows of raw cell text), both in document order. -/
structure Document where
  paragraphs : List Paragraph
  tables : List (List (List String))
  deriving DecidableEq, Repr

end Docx

namespace WordReader

/-- One entry of a paragraph's `runs` list in the output. -/
structure RunInfo where
  text : String
  bold : Option Bool
  italic : Option Bool
  underline : Option Bool
  deriving DecidableEq, Repr

/-- The `formatting` sub-dict of an output paragraph. -/
structure ParaFormatting where
  style : String
  alignment : Option String
  deriving DecidableEq, Repr

/-- One output paragraph dict: `formatting` and `runs` keys are optional. -/
structure ParagraphData where
  text : String
  formatting : Option ParaFormatting
  runs : Option (List RunInfo)
  deriving DecidableEq, Repr

/-- The success payload of `read_word_document`. -/
structure WordData where
  file_path : String
  file_type : String
  paragraphs : List ParagraphData
  tables : List (List (List String))
  total_paragraphs : Nat
  total_tables : Nat
  formatting_included : Bool
  deriving DecidableEq, Repr

/-- Result dict of `WordReader.read_word_document`: `success: true` payload
or the `{success: false, error, file_path}` dict. -/
inductive WordResult
  | ok (d : WordData)
  | failed (error : String) (file_path : String)
  deriving DecidableEq, Repr

/-- The `runs_info` loop: keep runs with non-blank stripped text, record
stripped text and the three flags. -/
def runsInfo (runs : List Docx.Run) : List RunInfo :=
  (runs.filter (fun r => nonBlank r.text)).map
    (fun r => { text := pyStrip r.text, bold := r.bold, italic := r.italic,
                underline := r.underline })

/-- Build one `paragraph_data` dict for an (already non-blank) paragraph. -/
def paragraphData (include_formatting : Bool) (p : Docx.Paragraph) :
    ParagraphData :=
  if include_formatting then
    let ri := runsInfo p.runs
    { text := pyStrip p.text
      formatting := some { style := p.styleName.getD "Normal",
                           alignment := p.alignment }
      runs := if ri.isEmpty then Option.none else some ri }
  else
    { text := pyStrip p.text, formatting := Option.none, runs := Option.none }

/-- The paragraph loop: keep paragraphs with non-blank stripped text. -/
def extractParagraphs (include_formatting : Bool)
    (ps : List Docx.Paragraph) : List ParagraphData :=
  (ps.filter (fun p => nonBlank p.text)).map (paragraphData include_formatting)

/-- The table loop: strip every cell's text, keep structure and order. -/
def extractTables (ts : List (List (List String))) :
    List (List (List String)) :=
  ts.map (fun t => t.map (fun row => row.map pyStrip))

/-- `WordReader.read_word_document`: existence and extension checks raise;
everything after that is wrapped in try/except and surfaces failures as a
`{success: false, ...}` dict.  `codec` is the outcome of `Document(path)`. -/
def read_word_document (file_path : String) (info : PathInfo)
    (codec : Except String Docx.Document) (include_formatting : Bool) :
    Except PyExn WordResult :=
  if !info.onDisk then
    Except.error (PyExn.fileNotFound ("File not found: " ++ file_path))
  else if !(pyLower info.suffix == ".docx") then
    Except.error (PyExn.valueError
      ("File must be a .docx file, got: " ++ info.suffix))
  else
    match codec with
    | Except.error e => Except.ok (WordResult.failed e file_path)
    | Except.ok doc =>
        Except.ok (WordResult.ok
          { file_path := file_path
            file_type := "Microsoft Word Document (.docx)"
            paragraphs := extractParagraphs include_formatting doc.paragraphs
            tables := extractTables doc.tables
            total_paragraphs :=
              (extractParagraphs include_formatting doc.paragraphs).length
            total_tables := (extractTables doc.tables).length
            formatting_included := include_formatting })

end WordReader

namespace ExcelReader

/-- `self.supported_formats` of `ExcelReader`. -/
def supported_formats : List String := [".xlsx", ".xls", ".xlsm"]

/-- `openpyxl.utils.get_column_letter`, 1-based bijective base 26,
computed with structural fuel (`(n-1)/26 < n` keeps `n` fuel enough). -/
def colLetterAux : Nat → Nat → String
  | 0, _ => ""
  | _ + 1, 0 => ""
  | fuel + 1, n + 1 =>
      colLetterAux fuel (n / 26) ++ String.singleton (Char.ofNat (65 + n % 26))

def get_column_letter (n : Nat) : String := colLetterAux n n

/-- `f"{get_column_letter(col)}{row}"`. -/
def cellRef (row col : Nat) : String := get_column_letter col ++ toString row

/-- Font attributes of a cell, as projected by `_extract_cell_formatting`
from the codec's font object (`none` when the cell has no font object). -/
structure FontInfo where
  name : String
  size : Int
  bold : Option Bool
  italic : Option Bool
  underline : Option String
  color : Option String
  deriving DecidableEq, Repr

/-- Alignment attributes projected by `_extract_cell_formatting`. -/
structure AlignmentInfo where
  horizontal : Option String
  vertical : Option String
  wrap_text : Option Bool
  text_rotation : Int
  deriving DecidableEq, Repr

/-- One openpyxl cell as the extractor reads it: its value, its
`data_type` code (`"f"` marks a formula cell), and the style attributes
`_extract_cell_formatting` projects.  Fill and border attributes are
codec data no claim inspects and are elided from the model. -/
structure XCell where
  value : PyVal
  data_type : String
  number_format : String
  font : Option FontInfo
  alignment : Option AlignmentInfo
  deriving DecidableEq, Repr

/-- One data-validation rule, keyed by `str(validation.ranges)`. -/
structure ValidationRule where
  ranges : String
  vtype : Option String
  operator : Option String
  formula1 : Option String
  formula2 : Option String
  showErrorMessage : Option Bool
  errorMessage : Option String
  showInputMessage : Option Bool
  inputMessage : Option String
  deriving DecidableEq, Repr

/-- An openpyxl worksheet: title, dimensions, a total cell accessor
(`worksheet.cell(row=r, column=c)`, 1-based — openpyxl materializes any
requested cell), and its declared validation rules. -/
structure Worksheet where
  title : String
  max_row : Nat
  max_column : Nat
  cellAt : Nat → Nat → XCell
  validations : List ValidationRule

/-- xlrd cell-type tags; the tag the source compares against
(`xlrd.XL_CELL_FORMULA`) is modelled as the `formula` constructor. -/
inductive XlsCellType
  | empty | text | number | date | boolean | err | blank | formula
  deriving DecidableEq, Repr

/-- One xlrd cell: `cell_value`, `cell_type`, `cell_xf_index`. -/
structure XlsCell where
  value : PyVal
  ctype : XlsCellType
  xf_index : Nat
  deriving DecidableEq, Repr

/-- An xlrd worksheet: name, `nrows`/`ncols`, 0-based cell accessor. -/
structure XlsSheet where
  name : String
  nrows : Nat
  ncols : Nat
  cellAt : Nat → Nat → XlsCell

/-- The `data_type` field of an output cell dict: the xlsx path stores
`str(type(cell.value).__name__)`, the xls path stores the xlrd type tag. -/
inductive DataTypeTag
  | typeName (s : String)
  | xlsCode (t : XlsCellType)
  deriving DecidableEq, Repr

/-- One entry of a worksheet's `cells` list. -/
structure CellData where
  reference : String
  row : Nat
  column : Nat
  value : PyVal
  data_type : DataTypeTag
  deriving DecidableEq, Repr

/-- One entry of the `formulas` map. -/
structure FormulaRecord where
  formula : PyVal
  calculated_value : PyVal
  deriving DecidableEq, Repr

/-- The formatting record `_extract_cell_formatting` builds (xlsx path). -/
structure XlsxFormatting where
  font : Option FontInfo
  alignment : Option AlignmentInfo
  number_format : String
  deriving DecidableEq, Repr

/-- One entry of the `formatting` map: rich record on the xlsx path,
`{xf_index, note}` on the xls path. -/
inductive FormattingRecord
  | xlsxFmt (f : XlsxFormatting)
  | xlsFmt (xf_index : Nat) (note : String)
  deriving DecidableEq, Repr

/-- `_extract_cell_formatting` (font/alignment/number-format projection;
fill and border elided, see `XCell`). -/
def extract_cell_formatting (c : XCell) : FormattingRecord :=
  FormattingRecord.xlsxFmt
    { font := c.font, alignment := c.alignment,
      number_format := c.number_format }

/-- `_get_cell_value`: `None` passes through, datetimes become their
ISO-8601 string, everything else is unchanged. -/
def get_cell_value : PyVal → PyVal
  | PyVal.datetime iso => PyVal.str iso
  | v => v

/-- The non-blank filter of the xlsx cell loop:
`cell.value is not None and str(cell.value).strip()`. -/
def keepCell (v : PyVal) : Bool := v != PyVal.none && nonBlank (pyStr v)

/-- Row-major visit order of the used range `[1..max_row]×[1..max_col]`. -/
def cellRange (max_row max_column : Nat) : List (Nat × Nat) :=
  (List.range' 1 max_row).flatMap
    (fun r => (List.range' 1 max_column).map (fun c => (r, c)))

/-- The `cells_data` accumulator of `_extract_worksheet_data`. -/
def sheetCells (ws : Worksheet) : List CellData :=
  (cellRange ws.max_row ws.max_column).filterMap (fun rc =>
    let cell := ws.cellAt rc.1 rc.2
    if keepCell cell.value then
      some { reference := cellRef rc.1 rc.2, row := rc.1, column := rc.2,
             value := get_cell_value cell.value,
             data_type := DataTypeTag.typeName (pyTypeName cell.value) }
    else Option.none)

/-- The `formulas` accumulator of `_extract_worksheet_data`; keyed at every
visited cell whose `data_type` is `"f"`, before the non-blank filter. -/
def sheetFormulas (ws : Worksheet) (include_formulas : Bool) :
    List (String × FormulaRecord) :=
  if include_formulas then
    (cellRange ws.max_row ws.max_column).filterMap (fun rc =>
      let cell := ws.cellAt rc.1 rc.2
      if cell.data_type == "f" then
        some (cellRef rc.1 rc.2,
              { formula := cell.value,
                calculated_value := get_cell_value cell.value })
      else Option.none)
  else []

/-- The `formatting_info` accumulator of `_extract_worksheet_data`; an
entry for every visited cell, blank or not. -/
def sheetFormatting (ws : Worksheet) (include_formatting : Bool) :
    List (String × FormattingRecord) :=
  if include_formatting then
    (cellRange ws.max_row ws.max_column).map (fun rc =>
      (cellRef rc.1 rc.2, extract_cell_formatting (ws.cellAt rc.1 rc.2)))
  else []

/-- The `dimensions` sub-dict of a worksheet record. -/
structure Dimensions where
  max_row : Nat
  max_column : Nat
  used_range : String
  deriving DecidableEq, Repr

/-- One worksheet record of the result payload. -/
structure SheetData where
  name : String
  dimensions : Dimensions
  cells : List CellData
  total_cells : Nat
  formulas : List (String × FormulaRecord)
  formatting : List (String × FormattingRecord)
  data_validation : List (String × ValidationRule)
  deriving DecidableEq, Repr

/-- `_extract_validation_rules`: key each rule by its ranges string. -/
def extract_validation_rules (ws : Worksheet) :
    List (String × ValidationRule) :=
  ws.validations.map (fun v => (v.ranges, v))

/-- `_extract_worksheet_data` (openpyxl path). -/
def extract_worksheet_data (ws : Worksheet)
    (include_formatting include_formulas include_validation : Bool) :
    SheetData :=
  { name := ws.title
    dimensions := { max_row := ws.max_row, max_column := ws.max_column,
                    used_range := "A1:" ++ get_column_letter ws.max_column
                      ++ toString ws.max_row }
    cells := sheetCells ws
    total_cells := (sheetCells ws).length
    formulas := sheetFormulas ws include_formulas
    formatting := sheetFormatting ws include_formatting
    data_validation :=
      if include_validation then extract_validation_rules ws else [] }

/-- The skip test of the xls cell loop:
`cell_value == '' or cell_value is None`. -/
def xlsSkip (v : PyVal) : Bool := v == PyVal.str "" || v == PyVal.none

/-- Row-major 0-based visit order of the xls grid. -/
def xlsRange (nrows ncols : Nat) : List (Nat × Nat) :=
  (List.range nrows).flatMap
    (fun r => (List.range ncols).map (fun c => (r, c)))

/-- The cells that survive the `continue` at the top of the xls loop:
formula, formatting and cell-list extraction all happen after it. -/
def xlsKept (ws : XlsSheet) : List (Nat × Nat) :=
  (xlsRange ws.nrows ws.ncols).filter
    (fun rc => !xlsSkip (ws.cellAt rc.1 rc.2).value)

/-- The `cells_data` accumulator of `_extract_xls_worksheet_data`. -/
def xlsCellsData (ws : XlsSheet) : List CellData :=
  (xlsKept ws).map (fun rc =>
    let cell := ws.cellAt rc.1 rc.2
    { reference := cellRef (rc.1 + 1) (rc.2 + 1),
      row := rc.1 + 1, column := rc.2 + 1,
      value := cell.value, data_type := DataTypeTag.xlsCode cell.ctype })

/-- The `formulas` accumulator of the xls loop: only reached for cells
that passed the blank skip. -/
def xlsFormulas (ws : XlsSheet) (include_formulas : Bool) :
    List (String × FormulaRecord) :=
  if include_formulas then
    (xlsKept ws).filterMap (fun rc =>
      let cell := ws.cellAt rc.1 rc.2
      if cell.ctype == XlsCellType.formula then
        some (cellRef (rc.1 + 1) (rc.2 + 1),
              { formula :=
                  PyVal.str
                    "Formula extraction not fully supported in .xls files",
                calculated_value := cell.value })
      else Option.none)
  else []

/-- The `formatting_info` accumulator of the xls loop: only reached for
cells that passed the blank skip. -/
def xlsFormatting (ws : XlsSheet) (include_formatting : Bool) :
    List (String × FormattingRecord) :=
  if include_formatting then
    (xlsKept ws).map (fun rc =>
      (cellRef (rc.1 + 1) (rc.2 + 1),
       FormattingRecord.xlsFmt (ws.cellAt rc.1 rc.2).xf_index
         "Limited formatting support for .xls files"))
  else []

/-- `_extract_xls_worksheet_data` (xlrd path). -/
def extract_xls_worksheet_data (ws : XlsSheet)
    (include_formatting include_formulas _include_validation : Bool) :
    SheetData :=
  { name := ws.name
    dimensions := { max_row := ws.nrows, max_column := ws.ncols,
                    used_range := "A1:" ++ get_column_letter ws.ncols
                      ++ toString ws.nrows }
    cells := xlsCellsData ws
    total_cells := (xlsCellsData ws).length
    formulas := xlsFormulas ws include_formulas
    formatting := xlsFormatting ws include_formatting
    data_validation := [] }

/-- An openpyxl workbook: sheets plus document properties. -/
structure Workbook where
  sheets : List Worksheet
  creator : Option String
  created : Option String
  modified : Option String

/-- An xlrd workbook. -/
structure XlsWorkbook where
  sheets : List XlsSheet

/-- The `workbook_info` sub-dict (`creator = none` models the key being
absent, as on the xls path). -/
structure WorkbookInfo where
  total_sheets : Nat
  sheet_names : List String
  creator : Option String
  created : Option String
  modified : Option String
  deriving DecidableEq, Repr

/-- The `success: true` payload of `read_excel_file`. -/
structure ExcelData where
  file_path : String
  file_type : String
  worksheets : List SheetData
  workbook_info : WorkbookInfo
  deriving DecidableEq, Repr

/-- Result dict of `ExcelReader.read_excel_file`. -/
inductive ExcelResult
  | ok (d : ExcelData)
  | failed (error : String) (file_path : String)
  deriving DecidableEq, Repr

/-- `_read_xlsx_file` after a successful codec load. -/
def read_xlsx_file (file_path : String) (wb : Workbook)
    (include_formatting include_formulas include_validation : Bool) :
    ExcelData :=
  { file_path := file_path
    file_type := "Excel Workbook (.xlsx/.xlsm)"
    worksheets := wb.sheets.map (fun ws =>
      extract_worksheet_data ws include_formatting include_formulas
        include_validation)
    workbook_info :=
      { total_sheets := wb.sheets.length
        sheet_names := wb.sheets.map Worksheet.title
        creator := some (wb.creator.getD "Unknown")
        created := wb.created
        modified := wb.modified } }

/-- `_read_xls_file` after a successful codec load. -/
def read_xls_file (file_path : String) (wb : XlsWorkbook)
    (include_formatting include_formulas include_validation : Bool) :
    ExcelData :=
  { file_path := file_path
    file_type := "Excel Workbook (.xls)"
    worksheets := wb.sheets.map (fun ws =>
      extract_xls_worksheet_data ws include_formatting include_formulas
        include_validation)
    workbook_info :=
      { total_sheets := wb.sheets.length
        sheet_names := wb.sheets.map XlsSheet.name
        creator := Option.none
        created := Option.none
        modified := Option.none } }

/-- `ExcelReader.read_excel_file`: existence and extension checks raise;
the parse itself is wrapped in try/except and failures come back as the
`{success: false, error, file_path}` dict.  `xlsxCodec` / `xlsCodec` are
the outcomes of the two library loads for this path. -/
def read_excel_file (file_path : String) (info : PathInfo)
    (xlsxCodec : Except String Workbook) (xlsCodec : Except String XlsWorkbook)
    (include_formatting include_formulas include_validation : Bool) :
    Except PyExn ExcelResult :=
  if !info.onDisk then
    Except.error (PyExn.fileNotFound ("File not found: " ++ file_path))
  else if !(supported_formats.contains (pyLower info.suffix)) then
    Except.error (PyExn.valueError
      ("Unsupported Excel format: " ++ info.suffix
        ++ ". Supported: ['.xlsx', '.xls', '.xlsm']"))
  else if pyLower info.suffix == ".xlsx" || pyLower info.suffix == ".xlsm" then
    match xlsxCodec with
    | Except.error e => Except.ok (ExcelResult.failed e file_path)
    | Except.ok wb =>
        Except.ok (ExcelResult.ok (read_xlsx_file file_path wb
          include_formatting include_formulas include_validation))
  else
    match xlsCodec with
    | Except.error e => Except.ok (ExcelResult.failed e file_path)
    | Except.ok wb =>
        Except.ok (ExcelResult.ok (read_xls_file file_path wb
          include_formatting include_formulas include_validation))

end ExcelReader

namespace Server

/-- The `arguments` mapping of a tool call (`arguments.get(key)` returns
`none` when the key is absent). -/
structure Args where
  file_path : Option String
  include_formatting : Option Bool
  include_formulas : Option Bool
  include_validation : Option Bool
  directory_path : Option String
  deriving DecidableEq, Repr

/-- One file met by `path.rglob("*")`, in traversal order. -/
structure FsFile where
  fname : String
  fpath : String
  suffix : String
  size : Nat
  mtime : Int
  is_file : Bool
  deriving DecidableEq, Repr

/-- What `Path(directory_path)` reveals for the listing tool. -/
structure DirInfo where
  onDisk : Bool
  isDir : Bool
  entries : List FsFile
  deriving DecidableEq, Repr

/-- The filesystem and the three codec libraries, as the environment the
server runs against: per path string, its `Path` facts and the outcome of
each library load. -/
structure Env where
  pathOf : String → PathInfo
  xlsxCodec : String → Except String ExcelReader.Workbook
  xlsCodec : String → Except String ExcelReader.XlsWorkbook
  wordCodec : String → Except String Docx.Document
  dirOf : String → DirInfo

/-- `self.supported_formats` of `AIFileBridgeServer`. -/
def supportedCatalog : List (String × String) :=
  [(".docx", "Microsoft Word Document"),
   (".xlsx", "Microsoft Excel Workbook"),
   (".xls", "Microsoft Excel Workbook (Legacy)"),
   (".xlsm", "Microsoft Excel Macro-Enabled Workbook")]

/-- One entry of the `supported_files` list. -/
structure FileEntry where
  fname : String
  fpath : String
  format : String
  format_description : String
  size : Nat
  modified : Int
  deriving DecidableEq, Repr

/-- The dict a tool handler returns (the `result` serialized into the
response's text content).  `failure e p` is the
`{success: false, error: e, file_path: p}` dict, wherever it was built. -/
inductive ToolPayload
  | excelData (d : ExcelReader.ExcelData)
  | wordData (d : WordReader.WordData)
  | failure (error : String) (file_path : String)
  | listing (directory : String) (files : List FileEntry) (count : Nat)
      (fmts : List String)
  | catalog (fmts : List (String × String)) (total : Nat)
  deriving DecidableEq, Repr

/-- Lift an `ExcelResult` dict into the payload vocabulary. -/
def ofExcelResult : ExcelReader.ExcelResult → ToolPayload
  | ExcelReader.ExcelResult.ok d => ToolPayload.excelData d
  | ExcelReader.ExcelResult.failed e p => ToolPayload.failure e p

/-- Lift a `WordResult` dict into the payload vocabulary. -/
def ofWordResult : WordReader.WordResult → ToolPayload
  | WordReader.WordResult.ok d => ToolPayload.wordData d
  | WordReader.WordResult.failed e p => ToolPayload.failure e p

/-- `_read_excel_file`: validate `file_path`, then call the reader inside
try/except, turning any escaped exception into a `success: false` dict. -/
def read_excel_tool (env : Env) (args : Args) :
    Except PyExn ToolPayload :=
  if argFalsy args.file_path then
    Except.error (PyExn.valueError "file_path is required")
  else
    let fp := args.file_path.getD ""
    match ExcelReader.read_excel_file fp (env.pathOf fp) (env.xlsxCodec fp)
        (env.xlsCodec fp) (args.include_formatting.getD true)
        (args.include_formulas.getD true)
        (args.include_validation.getD true) with
    | Except.error e => Except.ok (ToolPayload.failure (PyExn.str e) fp)
    | Except.ok r => Except.ok (ofExcelResult r)

/-- `_read_word_document`: same shape, formatting defaults to `False`. -/
def read_word_tool (env : Env) (args : Args) :
    Except PyExn ToolPayload :=
  if argFalsy args.file_path then
    Except.error (PyExn.valueError "file_path is required")
  else
    let fp := args.file_path.getD ""
    match WordReader.read_word_document fp (env.pathOf fp)
        (env.wordCodec fp) (args.include_formatting.getD false) with
    | Except.error e => Except.ok (ToolPayload.failure (PyExn.str e) fp)
    | Except.ok r => Except.ok (ofWordResult r)

/-- `_read_document`: its own existence/extension checks sit OUTSIDE any
try block, so their exceptions escape to the tools/call handler. -/
def read_document_tool (env : Env) (args : Args) :
    Except PyExn ToolPayload :=
  if argFalsy args.file_path then
    Except.error (PyExn.valueError "file_path is required")
  else
    let fp := args.file_path.getD ""
    let info := env.pathOf fp
    if !info.onDisk then
      Except.error (PyExn.fileNotFound ("File not found: " ++ fp))
    else
      let ext := pyLower info.suffix
      if ext == ".docx" then read_word_tool env args
      else if ext == ".xlsx" || ext == ".xls" || ext == ".xlsm" then
        read_excel_tool env args
      else
        Except.error (PyExn.valueError
          ("Unsupported file format: " ++ ext
            ++ ". Supported formats: ['.docx', '.xlsx', '.xls', '.xlsm']"))

/-- `_list_supported_files`: its existence/directory checks also raise
outside any try block. -/
def list_supported_files_tool (env : Env) (args : Args) :
    Except PyExn ToolPayload :=
  let dp := args.directory_path.getD "."
  let d := env.dirOf dp
  if !d.onDisk then
    Except.error (PyExn.fileNotFound ("Directory not found: " ++ dp))
  else if !d.isDir then
    Except.error (PyExn.valueError ("Path is not a directory: " ++ dp))
  else
    let kept := d.entries.filter (fun f =>
      f.is_file && (supportedCatalog.map Prod.fst).contains (pyLower f.suffix))
    Except.ok (ToolPayload.listing dp
      (kept.map (fun f =>
        { fname := f.fname, fpath := f.fpath, format := pyLower f.suffix,
          format_description :=
            ((supportedCatalog.lookup (pyLower f.suffix)).getD ""),
          size := f.size, modified := f.mtime }))
      kept.length (supportedCatalog.map Prod.fst))

/-- `_get_supported_formats`. -/
def get_supported_formats_tool (_env : Env) (_args : Args) :
    Except PyExn ToolPayload :=
  Except.ok (ToolPayload.catalog supportedCatalog supportedCatalog.length)

/-- The `params` mapping of a request (`params.get("id")` yields `None`
when absent, modelled by `PyVal.none`). -/
structure CallParams where
  id : PyVal
  name : Option String
  arguments : Args
  deriving DecidableEq, Repr

/-- The `result` member of a success response. -/
inductive ResultBody
  | initInfo (protocolVersion serverName serverVersion : String)
  | toolList (names : List String)
  | content (payload : ToolPayload)
  deriving DecidableEq, Repr

/-- A JSON-RPC response line: success or error object.  The `id` slot is
`none` when the response carries no `id` key at all (the tools/list
response), `some PyVal.none` when the key is present with value null. -/
inductive Response
  | success (id : Option PyVal) (result : ResultBody)
  | rpcError (id : Option PyVal) (code : Int) (message : String)
  deriving DecidableEq, Repr

/-- The tool-name dispatch table of `_handle_tools_call`: `none` for an
unregistered tool name. -/
def dispatchTool (env : Env) (params : CallParams) :
    Option (Except PyExn ToolPayload) :=
  if params.name == some "read_document" then
    some (read_document_tool env params.arguments)
  else if params.name == some "read_excel_file" then
    some (read_excel_tool env params.arguments)
  else if params.name == some "read_word_document" then
    some (read_word_tool env params.arguments)
  else if params.name == some "list_supported_files" then
    some (list_supported_files_tool env params.arguments)
  else if params.name == some "get_supported_formats" then
    some (get_supported_formats_tool env params.arguments)
  else Option.none

/-- The response wrapping of `_handle_tools_call`: the -32601 return for
an unknown tool, the success envelope around a returned dict, and the
try/except turning a raised exception into a -32603 error — all carrying
`params.get("id")`. -/
def callResponse (i : PyVal) (nm : Option String) :
    Option (Except PyExn ToolPayload) → Response
  | Option.none =>
      Response.rpcError (some i) (-32601)
        ("Tool not found: " ++ pyShowOpt nm)
  | some (Except.ok payload) =>
      Response.success (some i) (ResultBody.content payload)
  | some (Except.error e) =>
      Response.rpcError (some i) (-32603)
        ("Internal error: " ++ PyExn.str e)

/-- `_handle_tools_call`. -/
def handle_tools_call (env : Env) (params : CallParams) : Response :=
  callResponse params.id params.name (dispatchTool env params)

/-- `_handle_initialize`: the response id comes from `params.get("id")`. -/
def initResponse (params : CallParams) : Response :=
  Response.success (some params.id)
    (ResultBody.initInfo "2024-11-05" "ai-file-bridge" "2.0.0")

/-- `_handle_tools_list`: the response carries no id key at all. -/
def toolsListResponse : Response :=
  Response.success Option.none
    (ResultBody.toolList
      ["read_document", "read_excel_file", "read_word_document",
       "list_supported_files", "get_supported_formats"])

/-- A decoded request line: `request.get("id")` and `request.get("params",
{})`; a missing params mapping is the empty mapping. -/
structure Request where
  id : PyVal
  method : Option String
  params : CallParams
  deriving DecidableEq, Repr

/-- `handle_request`: dispatch on `request.get("method")`; only the
unknown-method error echoes the request's own top-level id. -/
def handle_request (env : Env) (req : Request) : Response :=
  if req.method == some "initialize" then initResponse req.params
  else if req.method == some "tools/list" then toolsListResponse
  else if req.method == some "tools/call" then
    handle_tools_call env req.params
  else
    Response.rpcError (some req.id) (-32601)
      ("Method not found: " ++ pyShowOpt req.method)

/-- One line read from stdin, after `json.loads(line.strip())`:
a JSON object (handled), some other JSON value (`request.get` raises,
caught by the outer except), or not JSON at all (`JSONDecodeError`). -/
inductive InputLine
  | parsed (req : Request)
  | nonObject (msg : String)
  | malformed (msg : String)
  deriving DecidableEq, Repr

/-- The -32700 response of the `json.JSONDecodeError` handler: id key
present with value null. -/
def parseErrorResponse (msg : String) : Response :=
  Response.rpcError (some PyVal.none) (-32700) ("Parse error: " ++ msg)

/-- The -32603 response of the outer `except Exception` handler. -/
def internalErrorResponse (msg : String) : Response :=
  Response.rpcError (some PyVal.none) (-32603) ("Internal error: " ++ msg)

/-- The `main` loop: one response per input line, in order; the loop ends
only when the input stream does (`readline` returning `""` breaks). -/
def serverLoop (env : Env) : List InputLine → List Response
  | [] => []
  | InputLine.parsed req :: rest =>
      handle_request env req :: serverLoop env rest
  | InputLine.nonObject msg :: rest =>
      internalErrorResponse msg :: serverLoop env rest
  | InputLine.malformed msg :: rest =>
      parseErrorResponse msg :: serverLoop env rest

end Server

/-- The `id` slot of a response, whichever kind it is. -/
def Server.responseId : Server.Response → Option PyVal
  | Server.Response.success i _ => i
  | Server.Response.rpcError i _ _ => i

/-- Fixture: an environment in which no path and no directory exists. -/
def envAbsent : Server.Env :=
  { pathOf := fun _ => { onDisk := false, suffix := ".xlsx" }
    xlsxCodec := fun _ => Except.error "no file"
    xlsCodec := fun _ => Except.error "no file"
    wordCodec := fun _ => Except.error "no file"
    dirOf := fun _ => { onDisk := false, isDir := false, entries := [] } }

/-- Fixture: an arguments mapping holding only a file path. -/
def argsOf (fp : String) : Server.Args :=
  { file_path := some fp, include_formatting := Option.none,
    include_formulas := Option.none, include_validation := Option.none,
    directory_path := Option.none }

/-- Fixture: an arguments mapping with no file path at all. -/
def argsEmpty : Server.Args :=
  { file_path := Option.none, include_formatting := Option.none,
    include_formulas := Option.none, include_validation := Option.none,
    directory_path := Option.none }

/-- Fixture: an arguments mapping holding only a directory path. -/
def argsDir (dp : String) : Server.Args :=
  { file_path := Option.none, include_formatting := Option.none,
    include_formulas := Option.none, include_validation := Option.none,
    directory_path := some dp }

/-- Fixture: a 1×1 xls sheet whose only cell is formula-typed with a blank
cached value. -/
def xlsBlankFormulaSheet : ExcelReader.XlsSheet :=
  { name := "S", nrows := 1, ncols := 1,
    cellAt := fun _ _ =>
      { value := PyVal.str "", ctype := ExcelReader.XlsCellType.formula,
        xf_index := 0 } }

/-- Fixture: a 1×2 xls sheet with a non-blank formula-typed cell at (0,0)
and a text cell at (0,1). -/
def xlsSheetFix : ExcelReader.XlsSheet :=
  { name := "Legacy", nrows := 1, ncols := 2,
    cellAt := fun _ c =>
      if c == 0 then
        { value := PyVal.int 5, ctype := ExcelReader.XlsCellType.formula,
          xf_index := 3 }
      else
        { value := PyVal.str "x", ctype := ExcelReader.XlsCellType.text,
          xf_index := 4 } }

/-- Fixture: a 2×2 openpyxl sheet with a formula cell at A1, a blank cell
at B1 and numeric cells in row 2. -/
def xlsxSheetFix : ExcelReader.Worksheet :=
  { title := "Sheet1", max_row := 2, max_column := 2,
    cellAt := fun r c =>
      if r == 1 && c == 1 then
        { value := PyVal.str "=SUM(A2:B2)", data_type := "f",
          number_format := "General", font := Option.none,
          alignment := Option.none }
      else if r == 1 && c == 2 then
        { value := PyVal.str "", data_type := "s",
          number_format := "General", font := Option.none,
          alignment := Option.none }
      else
        { value := PyVal.int 3, data_type := "n",
          number_format := "General", font := Option.none,
          alignment := Option.none },
    validations := [] }

/-- Fixture: a small docx document — one paragraph with mixed runs, one
blank paragraph, one styled paragraph, one table with padded cells. -/
def wordDocFix : Docx.Document :=
  { paragraphs :=
      [ { text := "  Hello world  ", styleName := Option.none,
          alignment := Option.none,
          runs :=
            [ { text := "Hello ", bold := some true,
                italic := Option.none, underline := Option.none },
              { text := "   ", bold := Option.none,
                italic := Option.none, underline := Option.none },
              { text := "world", bold := Option.none,
                italic := some false, underline := Option.none } ] },
        { text := "   ", styleName := some "Body",
          alignment := Option.none, runs := [] },
        { text := "Second", styleName := some "Heading 1",
          alignment := some "CENTER (1)", runs := [] } ],
    tables := [ [ [" a ", "b"], ["c", " d "] ] ] }

open Server ExcelReader WordReader

/-! Helper lemmas shared by the claim theorems. -/

theorem responseId_callResponse (i : PyVal) (nm : Option String)
    (d : Option (Except PyExn ToolPayload)) :
    Server.responseId (callResponse i nm d) = some i := by
  cases d with
  | none => rfl
  | some x => cases x <;> rfl

theorem handle_tools_call_id (env : Env) (params : CallParams) :
    Server.responseId (handle_tools_call env params) = some params.id :=
  responseId_callResponse params.id params.name (dispatchTool env params)

theorem dispatchTool_read_document (env : Env) (params : CallParams)
    (h : params.name = some "read_document") :
    dispatchTool env params = some (read_document_tool env params.arguments) := by
  simp [dispatchTool, h]

theorem dispatchTool_read_excel (env : Env) (params : CallParams)
    (h : params.name = some "read_excel_file") :
    dispatchTool env params = some (read_excel_tool env params.arguments) := by
  simp [dispatchTool, h]

theorem dispatchTool_read_word (env : Env) (params : CallParams)
    (h : params.name = some "read_word_document") :
    dispatchTool env params = some (read_word_tool env params.arguments) := by
  simp [dispatchTool, h]

theorem dispatchTool_list_files (env : Env) (params : CallParams)
    (h : params.name = some "list_supported_files") :
    dispatchTool env params
      = some (list_supported_files_tool env params.arguments) := by
  simp [dispatchTool, h]

theorem serverLoop_append (env : Env) (xs ys : List InputLine) :
    serverLoop env (xs ++ ys) = serverLoop env xs ++ serverLoop env ys := by
  induction xs with
  | nil => rfl
  | cons x xs ih => cases x <;> simp [serverLoop, ih]

theorem serverLoop_length (env : Env) (ls : List InputLine) :
    (serverLoop env ls).length = ls.length := by
  induction ls with
  | nil => rfl
  | cons x ls ih => cases x <;> simp [serverLoop, ih]

theorem mem_cellRange (nr nc r c : Nat) :
    (r, c) ∈ cellRange nr nc ↔ (1 ≤ r ∧ r ≤ nr) ∧ (1 ≤ c ∧ c ≤ nc) := by
  simp only [cellRange, List.mem_flatMap, List.mem_map, List.mem_range'_1,
    Prod.mk.injEq]
  constructor
  · rintro ⟨a, ha, b, hb, rfl, rfl⟩
    omega
  · rintro ⟨⟨h1, h2⟩, h3, h4⟩
    exact ⟨r, by omega, c, by omega, rfl, rfl⟩

theorem mem_xlsRange (nr nc r c : Nat) :
    (r, c) ∈ xlsRange nr nc ↔ r < nr ∧ c < nc := by
  simp only [xlsRange, List.mem_flatMap, List.mem_map, List.mem_range,
    Prod.mk.injEq]
  constructor
  · rintro ⟨a, ha, b, hb, rfl, rfl⟩
    exact ⟨ha, hb⟩
  · rintro ⟨h1, h2⟩
    exact ⟨r, h1, c, h2, rfl, rfl⟩

theorem paragraphData_text (fmt : Bool) (p : Docx.Paragraph) :
    (paragraphData fmt p).text = pyStrip p.text := by
  cases fmt <;> simp [paragraphData]

theorem read_excel_missing (fp : String) (info : PathInfo)
    (xc : Except String Workbook) (lc : Except String XlsWorkbook)
    (f1 f2 f3 : Bool) (h : info.onDisk = false) :
    ExcelReader.read_excel_file fp info xc lc f1 f2 f3
      = Except.error (PyExn.fileNotFound ("File not found: " ++ fp)) := by
  simp [ExcelReader.read_excel_file, h]

theorem read_excel_badext (fp : String) (info : PathInfo)
    (xc : Except String Workbook) (lc : Except String XlsWorkbook)
    (f1 f2 f3 : Bool) (h1 : info.onDisk = true)
    (h2 : pyLower info.suffix ∉ supported_formats) :
    ExcelReader.read_excel_file fp info xc lc f1 f2 f3
      = Except.error (PyExn.valueError
          ("Unsupported Excel format: " ++ info.suffix
            ++ ". Supported: ['.xlsx', '.xls', '.xlsm']")) := by
  simp [ExcelReader.read_excel_file, h1, h2]

theorem read_excel_xlsx_codec_fail (fp : String) (info : PathInfo)
    (m : String) (lc : Except String XlsWorkbook) (f1 f2 f3 : Bool)
    (h1 : info.onDisk = true)
    (h2 : pyLower info.suffix ∈ supported_formats)
    (h3 : pyLower info.suffix = ".xlsx" ∨ pyLower info.suffix = ".xlsm") :
    ExcelReader.read_excel_file fp info (Except.error m) lc f1 f2 f3
      = Except.ok (ExcelResult.failed m fp) := by
  simp [ExcelReader.read_excel_file, h1, h2, h3]

theorem read_excel_xls_codec_fail (fp : String) (info : PathInfo)
    (xc : Except String Workbook) (m : String) (f1 f2 f3 : Bool)
    (h1 : info.onDisk = true)
    (h2 : pyLower info.suffix ∈ supported_formats)
    (h3 : ¬(pyLower info.suffix = ".xlsx" ∨ pyLower info.suffix = ".xlsm")) :
    ExcelReader.read_excel_file fp info xc (Except.error m) f1 f2 f3
      = Except.ok (ExcelResult.failed m fp) := by
  simp [ExcelReader.read_excel_file, h1, h2, h3]

theorem read_excel_no_raise (fp : String) (info : PathInfo)
    (xc : Except String Workbook) (lc : Except String XlsWorkbook)
    (f1 f2 f3 : Bool) (h1 : info.onDisk = true)
    (h2 : pyLower info.suffix ∈ supported_formats) :
    ∃ r, ExcelReader.read_excel_file fp info xc lc f1 f2 f3
           = Except.ok r := by
  by_cases h3 : pyLower info.suffix = ".xlsx" ∨ pyLower info.suffix = ".xlsm"
  · cases xc <;> simp [ExcelReader.read_excel_file, h1, h2, h3]
  · cases lc <;> simp [ExcelReader.read_excel_file, h1, h2, h3]

theorem read_word_missing (fp : String) (info : PathInfo)
    (codec : Except String Docx.Document) (fmt : Bool)
    (h : info.onDisk = false) :
    WordReader.read_word_document fp info codec fmt
      = Except.error (PyExn.fileNotFound ("File not found: " ++ fp)) := by
  simp [WordReader.read_word_document, h]

theorem read_word_badext (fp : String) (info : PathInfo)
    (codec : Except String Docx.Document) (fmt : Bool)
    (h1 : info.onDisk = true)
    (h2 : pyLower info.suffix ≠ ".docx") :
    WordReader.read_word_document fp info codec fmt
      = Except.error (PyExn.valueError
          ("File must be a .docx file, got: " ++ info.suffix)) := by
  simp [WordReader.read_word_document, h1, h2]

theorem read_word_codec_fail (fp : String) (info : PathInfo) (m : String)
    (fmt : Bool) (h1 : info.onDisk = true)
    (h2 : pyLower info.suffix = ".docx") :
    WordReader.read_word_document fp info (Except.error m) fmt
      = Except.ok (WordResult.failed m fp) := by
  simp [WordReader.read_word_document, h1, h2]

theorem read_word_no_raise (fp : String) (info : PathInfo)
    (codec : Except String Docx.Document) (fmt : Bool)
    (h1 : info.onDisk = true)
    (h2 : pyLower info.suffix = ".docx") :
    ∃ r, WordReader.read_word_document fp info codec fmt = Except.ok r := by
  cases codec <;> simp [WordReader.read_word_document, h1, h2]

/-- C4: for every tools/call request to read_document, read_excel_file or
read_word_document whose arguments mapping lacks a file_path value
(absent or empty), the server emits a JSON-RPC error response with code
-32603, not a success envelope. -/
theorem C4_missing_file_path_is_rpc_error (env : Env) (params : CallParams)
    (htool : params.name = some "read_document"
           ∨ params.name = some "read_excel_file"
           ∨ params.name = some "read_word_document")
    (hfp : argFalsy params.arguments.file_path = true) :
    handle_tools_call env params
      = Response.rpcError (some params.id) (-32603)
          "Internal error: file_path is required" := by
  rcases htool with h | h | h <;>
    simp [handle_tools_call, dispatchTool, h, read_document_tool,
      read_excel_tool, read_word_tool, hfp, callResponse, PyExn.str]

/-- Witness for C4: a read_excel_file call with an empty arguments map. -/
theorem C4_missing_file_path_is_rpc_error_witness :
    ((some "read_excel_file" : Option String) = some "read_document"
       ∨ (some "read_excel_file" : Option String) = some "read_excel_file"
       ∨ (some "read_excel_file" : Option String) = some "read_word_document")
    ∧ argFalsy argsEmpty.file_path = true
    ∧ handle_tools_call envAbsent
        { id := PyVal.int 5, name := some "read_excel_file",
          arguments := argsEmpty }
        = Response.rpcError (some (PyVal.int 5)) (-32603)
            "Internal error: file_path is required" :=
  ⟨Or.inr (Or.inl rfl), rfl,
   C4_missing_file_path_is_rpc_error envAbsent
     { id := PyVal.int 5, name := some "read_excel_file",
       arguments := argsEmpty }
     (Or.inr (Or.inl rfl)) rfl⟩

/-- C5: a line that is not valid JSON yields exactly one -32700 response
with a null id, the loop then continues with the remaining lines, and
every input line yields exactly one response (the loop ends only with the
input). -/
theorem C5_parse_error_isolation (env : Env) (xs ys : List InputLine)
    (msg : String) :
    serverLoop env (xs ++ InputLine.malformed msg :: ys)
      = serverLoop env xs ++ parseErrorResponse msg :: serverLoop env ys
  ∧ parseErrorResponse msg
      = Response.rpcError (some PyVal.none) (-32700) ("Parse error: " ++ msg)
  ∧ (serverLoop env (xs ++ InputLine.malformed msg :: ys)).length
      = xs.length + 1 + ys.length := by
  refine ⟨?_, rfl, ?_⟩
  · rw [serverLoop_append]; rfl
  · rw [serverLoop_length]; simp [List.length_append]; omega

/-- C9: initialize and tools/call responses take their id from
`params.get("id")` (hence null when params lacks one), while only the
method-not-found error echoes the request's top-level id. -/
theorem C9_response_id_source (env : Env) (req : Request) :
    ((req.method = some "initialize" ∨ req.method = some "tools/call") →
       Server.responseId (handle_request env req) = some req.params.id)
  ∧ (req.method ≠ some "initialize" → req.method ≠ some "tools/list" →
     req.method ≠ some "tools/call" →
       handle_request env req
         = Response.rpcError (some req.id) (-32601)
             ("Method not found: " ++ pyShowOpt req.method)) := by
  constructor
  · rintro (h | h)
    · simp [handle_request, h, initResponse, Server.responseId]
    · simp [handle_request, h, handle_tools_call_id]
  · intro h1 h2 h3
    simp [handle_request, h1, h2, h3]

/-- Witness for C9: a tools/call whose top-level id is 42 but whose params
mapping has no id; the response id is null, not 42. -/
theorem C9_response_id_source_witness :
    ((some "tools/call" : Option String) = some "initialize"
       ∨ (some "tools/call" : Option String) = some "tools/call")
    ∧ Server.responseId (handle_request envAbsent
        { id := PyVal.int 42, method := some "tools/call",
          params := { id := PyVal.none, name := some "nope",
                      arguments := argsEmpty } })
        = some PyVal.none :=
  ⟨Or.inr rfl,
   (C9_response_id_source envAbsent
     { id := PyVal.int 42, method := some "tools/call",
       params := { id := PyVal.none, name := some "nope",
                   arguments := argsEmpty } }).1 (Or.inr rfl)⟩

theorem read_word_ok (fp : String) (info : PathInfo) (doc : Docx.Document)
    (fmt : Bool) (h1 : info.onDisk = true)
    (h2 : pyLower info.suffix = ".docx") :
    WordReader.read_word_document fp info (Except.ok doc) fmt
      = Except.ok (WordResult.ok
          { file_path := fp
            file_type := "Microsoft Word Document (.docx)"
            paragraphs := extractParagraphs fmt doc.paragraphs
            tables := extractTables doc.tables
            total_paragraphs := (extractParagraphs fmt doc.paragraphs).length
            total_tables := (extractTables doc.tables).length
            formatting_included := fmt }) := by
  simp [WordReader.read_word_document, h1, h2]

theorem read_word_ok_inv (fp : String) (info : PathInfo)
    (doc : Docx.Document) (fmt : Bool) (d : WordData)
    (hd : WordReader.read_word_document fp info (Except.ok doc) fmt
            = Except.ok (WordResult.ok d)) :
    d.paragraphs = extractParagraphs fmt doc.paragraphs
    ∧ d.tables = extractTables doc.tables
    ∧ d.total_paragraphs = (extractParagraphs fmt doc.paragraphs).length
    ∧ d.total_tables = (extractTables doc.tables).length := by
  cases h1 : info.onDisk with
  | false => rw [read_word_missing fp info (Except.ok doc) fmt h1] at hd; simp at hd
  | true =>
    by_cases h2 : pyLower info.suffix = ".docx"
    · rw [read_word_ok fp info doc fmt h1 h2] at hd
      simp only [Except.ok.injEq, WordResult.ok.injEq] at hd
      subst hd
      exact ⟨rfl, rfl, rfl, rfl⟩
    · rw [read_word_badext fp info (Except.ok doc) fmt h1 h2] at hd
      simp at hd

/-- C6: on a successfully parsed docx, total_paragraphs counts exactly the
paragraphs with non-blank trimmed text, total_tables counts the tables,
every emitted paragraph text is non-empty, and paragraphs and tables keep
document order. -/
theorem C6_word_document_counts (fp : String) (info : PathInfo)
    (doc : Docx.Document) (fmt : Bool) (d : WordData)
    (hd : WordReader.read_word_document fp info (Except.ok doc) fmt
            = Except.ok (WordResult.ok d)) :
    d.total_paragraphs
        = (doc.paragraphs.filter (fun p => nonBlank p.text)).length
  ∧ d.total_tables = doc.tables.length
  ∧ (∀ pd ∈ d.paragraphs, pd.text ≠ "")
  ∧ d.paragraphs
      = (doc.paragraphs.filter (fun p => nonBlank p.text)).map
          (paragraphData fmt)
  ∧ d.tables
      = doc.tables.map (fun t => t.map (fun row => row.map pyStrip)) := by
  obtain ⟨hp, ht, htp, htt⟩ := read_word_ok_inv fp info doc fmt d hd
  refine ⟨?_, ?_, ?_, ?_, ?_⟩
  · rw [htp]; simp [extractParagraphs]
  · rw [htt]; simp [extractTables]
  · intro pd hpd
    rw [hp] at hpd
    simp only [extractParagraphs, List.mem_map, List.mem_filter] at hpd
    obtain ⟨p, ⟨hpmem, hpnb⟩, rfl⟩ := hpd
    rw [paragraphData_text]
    simpa [nonBlank] using hpnb
  · rw [hp]; rfl
  · rw [ht]; rfl


/-- Witness for C6: the fixture document has three paragraphs, one of them
blank, and one table; the reader reports two paragraphs and one table. -/
theorem C6_word_document_counts_witness :
    WordReader.read_word_document "doc.docx"
        { onDisk := true, suffix := ".docx" } (Except.ok wordDocFix) false
      = Except.ok (WordResult.ok
          { file_path := "doc.docx"
            file_type := "Microsoft Word Document (.docx)"
            paragraphs :=
              [ { text := "Hello world", formatting := Option.none,
                  runs := Option.none },
                { text := "Second", formatting := Option.none,
                  runs := Option.none } ]
            tables := [[["a", "b"], ["c", "d"]]]
            total_paragraphs := 2
            total_tables := 1
            formatting_included := false })
    ∧ ((2 : Nat)
          = (wordDocFix.paragraphs.filter (fun p => nonBlank p.text)).length
       ∧ (1 : Nat) = wordDocFix.tables.length
       ∧ (∀ pd ∈
            [ ({ text := "Hello world", formatting := Option.none,
                 runs := Option.none } : ParagraphData),
              { text := "Second", formatting := Option.none,
                runs := Option.none } ], pd.text ≠ "")
       ∧ [ ({ text := "Hello world", formatting := Option.none,
              runs := Option.none } : ParagraphData),
           { text := "Second", formatting := Option.none,
             runs := Option.none } ]
           = (wordDocFix.paragraphs.filter (fun p => nonBlank p.text)).map
               (paragraphData false)
       ∧ [[["a", "b"], ["c", "d"]]]
           = wordDocFix.tables.map
               (fun t => t.map (fun row => row.map pyStrip))) :=
  ⟨rfl,
   C6_word_document_counts "doc.docx" { onDisk := true, suffix := ".docx" }
     wordDocFix false
     { file_path := "doc.docx"
       file_type := "Microsoft Word Document (.docx)"
       paragraphs :=
         [ { text := "Hello world", formatting := Option.none,
             runs := Option.none },
           { text := "Second", formatting := Option.none,
             runs := Option.none } ]
       tables := [[["a", "b"], ["c", "d"]]]
       total_paragraphs := 2
       total_tables := 1
       formatting_included := false }
     rfl⟩

/-- C7: with include_formatting=true, each emitted paragraph carries a
formatting record (style defaulting to "Normal", plus alignment); its runs
key holds exactly the runs with non-blank trimmed text, and is absent when
no run qualifies. -/
theorem C7_paragraph_formatting (fp : String) (info : PathInfo)
    (doc : Docx.Document) (d : WordData)
    (hd : WordReader.read_word_document fp info (Except.ok doc) true
            = Except.ok (WordResult.ok d)) :
    ∀ pd ∈ d.paragraphs, ∃ p ∈ doc.paragraphs,
      nonBlank p.text = true
      ∧ pd.formatting = some { style := p.styleName.getD "Normal",
                               alignment := p.alignment }
      ∧ (p.runs.filter (fun r => nonBlank r.text) = [] →
           pd.runs = Option.none)
      ∧ (p.runs.filter (fun r => nonBlank r.text) ≠ [] →
           pd.runs = some ((p.runs.filter (fun r => nonBlank r.text)).map
             (fun r => { text := pyStrip r.text, bold := r.bold,
                         italic := r.italic, underline := r.underline }))) := by
  obtain ⟨hp, -, -, -⟩ := read_word_ok_inv fp info doc true d hd
  intro pd hpd
  rw [hp] at hpd
  simp only [extractParagraphs, List.mem_map, List.mem_filter] at hpd
  obtain ⟨p, ⟨hpmem, hpnb⟩, rfl⟩ := hpd
  refine ⟨p, hpmem, hpnb, ?_, ?_, ?_⟩
  · simp [paragraphData]
  · intro hnil
    simp [paragraphData, runsInfo, hnil]
  · intro hne
    have hri : runsInfo p.runs ≠ [] := by
      simp only [runsInfo, ne_eq, List.map_eq_nil_iff]
      exact hne
    cases hriE : (runsInfo p.runs).isEmpty with
    | true => exact absurd (List.isEmpty_iff.mp hriE) hri
    | false =>
      simp only [ne_eq, List.filter_eq_nil_iff, not_forall] at hne
      simp [paragraphData, hriE, runsInfo]
      obtain ⟨x, hx, hnx⟩ := hne
      exact ⟨x, hx, by simpa using hnx⟩

/-- Witness for C7: the fixture document read with formatting; the first
paragraph keeps two of its three runs, the styled paragraph has no runs
key. -/
theorem C7_paragraph_formatting_witness :
    WordReader.read_word_document "doc.docx"
        { onDisk := true, suffix := ".docx" } (Except.ok wordDocFix) true
      = Except.ok (WordResult.ok
          { file_path := "doc.docx"
            file_type := "Microsoft Word Document (.docx)"
            paragraphs :=
              [ { text := "Hello world"
                  formatting := some { style := "Normal",
                                       alignment := Option.none }
                  runs := some
                    [ { text := "Hello", bold := some true,
                        italic := Option.none, underline := Option.none },
                      { text := "world", bold := Option.none,
                        italic := some false, underline := Option.none } ] },
                { text := "Second"
                  formatting := some { style := "Heading 1",
                                       alignment := some "CENTER (1)" }
                  runs := Option.none } ]
            tables := [[["a", "b"], ["c", "d"]]]
            total_paragraphs := 2
            total_tables := 1
            formatting_included := true })
    ∧ (∀ pd ∈
         [ ({ text := "Hello world"
              formatting := some { style := "Normal",
                                   alignment := Option.none }
              runs := some
                [ { text := "Hello", bold := some true,
                    italic := Option.none, underline := Option.none },
                  { text := "world", bold := Option.none,
                    italic := some false, underline := Option.none } ] } :
              ParagraphData),
           { text := "Second"
             formatting := some { style := "Heading 1",
                                  alignment := some "CENTER (1)" }
             runs := Option.none } ],
         ∃ p ∈ wordDocFix.paragraphs,
           nonBlank p.text = true
           ∧ pd.formatting = some { style := p.styleName.getD "Normal",
                                    alignment := p.alignment }
           ∧ (p.runs.filter (fun r => nonBlank r.text) = [] →
                pd.runs = Option.none)
           ∧ (p.runs.filter (fun r => nonBlank r.text) ≠ [] →
                pd.runs = some
                  ((p.runs.filter (fun r => nonBlank r.text)).map
                    (fun r => { text := pyStrip r.text, bold := r.bold,
                                italic := r.italic,
                                underline := r.underline })))) :=
  ⟨rfl,
   C7_paragraph_formatting "doc.docx" { onDisk := true, suffix := ".docx" }
     wordDocFix
     { file_path := "doc.docx"
       file_type := "Microsoft Word Document (.docx)"
       paragraphs :=
         [ { text := "Hello world"
             formatting := some { style := "Normal",
                                  alignment := Option.none }
             runs := some
               [ { text := "Hello", bold := some true,
                   italic := Option.none, underline := Option.none },
                 { text := "world", bold := Option.none,
                   italic := some false, underline := Option.none } ] },
           { text := "Second"
             formatting := some { style := "Heading 1",
                                  alignment := some "CENTER (1)" }
             runs := Option.none } ]
       tables := [[["a", "b"], ["c", "d"]]]
       total_paragraphs := 2
       total_tables := 1
       formatting_included := true }
     rfl⟩

/-- C10: the two readers raise exactly when the path is missing or the
extension is outside their supported set; for an existing, supported
file, a codec failure comes back as a success:false dict and no
exception escapes. -/
theorem C10_reader_exception_boundary (fp : String) (info : PathInfo)
    (xc : Except String Workbook) (lc : Except String XlsWorkbook)
    (wc : Except String Docx.Document) (f1 f2 f3 wf : Bool) :
    ((∃ e, ExcelReader.read_excel_file fp info xc lc f1 f2 f3
             = Except.error e)
       ↔ (info.onDisk = false ∨ pyLower info.suffix ∉ supported_formats))
  ∧ ((∃ e, WordReader.read_word_document fp info wc wf = Except.error e)
       ↔ (info.onDisk = false ∨ pyLower info.suffix ≠ ".docx"))
  ∧ (info.onDisk = true → pyLower info.suffix ∈ supported_formats →
      ∀ m, ((pyLower info.suffix = ".xlsx" ∨ pyLower info.suffix = ".xlsm") →
              xc = Except.error m →
              ExcelReader.read_excel_file fp info xc lc f1 f2 f3
                = Except.ok (ExcelResult.failed m fp))
         ∧ (¬(pyLower info.suffix = ".xlsx" ∨ pyLower info.suffix = ".xlsm") →
              lc = Except.error m →
              ExcelReader.read_excel_file fp info xc lc f1 f2 f3
                = Except.ok (ExcelResult.failed m fp)))
  ∧ (info.onDisk = true → pyLower info.suffix = ".docx" →
      ∀ m, wc = Except.error m →
        WordReader.read_word_document fp info wc wf
          = Except.ok (WordResult.failed m fp)) := by
  refine ⟨?_, ?_, ?_, ?_⟩
  · constructor
    · rintro ⟨e, he⟩
      by_contra hcon
      push_neg at hcon
      obtain ⟨h1, h2⟩ := hcon
      simp only [Bool.not_eq_false] at h1
      obtain ⟨r, hr⟩ := read_excel_no_raise fp info xc lc f1 f2 f3 h1 h2
      rw [hr] at he
      exact Except.noConfusion he
    · rintro (h | h)
      · exact ⟨_, read_excel_missing fp info xc lc f1 f2 f3 h⟩
      · cases h1 : info.onDisk with
        | false => exact ⟨_, read_excel_missing fp info xc lc f1 f2 f3 h1⟩
        | true => exact ⟨_, read_excel_badext fp info xc lc f1 f2 f3 h1 h⟩
  · constructor
    · rintro ⟨e, he⟩
      by_contra hcon
      push_neg at hcon
      obtain ⟨h1, h2⟩ := hcon
      simp only [Bool.not_eq_false] at h1
      obtain ⟨r, hr⟩ := read_word_no_raise fp info wc wf h1 h2
      rw [hr] at he
      exact Except.noConfusion he
    · rintro (h | h)
      · exact ⟨_, read_word_missing fp info wc wf h⟩
      · cases h1 : info.onDisk with
        | false => exact ⟨_, read_word_missing fp info wc wf h1⟩
        | true => exact ⟨_, read_word_badext fp info wc wf h1 h⟩
  · intro h1 h2 m
    constructor
    · intro h3 h4
      subst h4
      exact read_excel_xlsx_codec_fail fp info m lc f1 f2 f3 h1 h2 h3
    · intro h3 h4
      subst h4
      exact read_excel_xls_codec_fail fp info xc m f1 f2 f3 h1 h2 h3
  · intro h1 h2 m h4
    subst h4
    exact read_word_codec_fail fp info m wf h1 h2

/-- Witness for C10: an existing `.xls` file whose legacy codec load
fails; the reader returns the success:false dict instead of raising. -/
theorem C10_reader_exception_boundary_witness :
    ({ onDisk := true, suffix := ".xls" } : PathInfo).onDisk = true
    ∧ pyLower (({ onDisk := true, suffix := ".xls" } : PathInfo).suffix)
        ∈ supported_formats
    ∧ ¬(pyLower ".xls" = ".xlsx" ∨ pyLower ".xls" = ".xlsm")
    ∧ ExcelReader.read_excel_file "book.xls"
        { onDisk := true, suffix := ".xls" }
        (Except.error "no xlsx codec") (Except.error "bad xls") true true true
        = Except.ok (ExcelResult.failed "bad xls" "book.xls") :=
  ⟨rfl, by decide, by decide,
   ((C10_reader_exception_boundary "book.xls"
       { onDisk := true, suffix := ".xls" }
       (Except.error "no xlsx codec") (Except.error "bad xls")
       (Except.error "no docx") true true true true).2.2.1
     rfl (by decide) "bad xls").2 (by decide) rfl⟩

/-- C2 counterexample: on the .xls path a blank cell inside the visited
used range (here the whole 1×1 range, cell A1) gets no formatting entry
even with include_formatting=true — the formatting map comes out empty. -/
theorem C2_formatting_counterexample :
    xlsBlankFormulaSheet.nrows = 1
  ∧ xlsBlankFormulaSheet.ncols = 1
  ∧ xlsRange xlsBlankFormulaSheet.nrows xlsBlankFormulaSheet.ncols = [(0, 0)]
  ∧ cellRef (0 + 1) (0 + 1) = "A1"
  ∧ (extract_xls_worksheet_data xlsBlankFormulaSheet true true true).formatting
      = [] :=
  ⟨rfl, rfl, by decide, by decide, by decide⟩

/-- C2 amended: with include_formatting=true the formatting map covers
every cell of the visited range [1..max_row]×[1..max_col] — blanks
included — on the .xlsx/.xlsm path; on the .xls path it has entries
exactly for the cells that pass the non-blank skip. -/
theorem C2_formatting_coverage (ws : Worksheet) (lws : XlsSheet)
    (f2 f3 : Bool) (r c : Nat)
    (hr : 1 ≤ r ∧ r ≤ ws.max_row) (hc : 1 ≤ c ∧ c ≤ ws.max_column) :
    cellRef r c
      ∈ ((extract_worksheet_data ws true f2 f3).formatting.map Prod.fst)
  ∧ (extract_worksheet_data ws true f2 f3).formatting.map Prod.fst
      = (cellRange ws.max_row ws.max_column).map
          (fun rc => cellRef rc.1 rc.2)
  ∧ (extract_xls_worksheet_data lws true f2 f3).formatting.map Prod.fst
      = (xlsKept lws).map (fun rc => cellRef (rc.1 + 1) (rc.2 + 1)) := by
  have hkeys :
      (extract_worksheet_data ws true f2 f3).formatting.map Prod.fst
        = (cellRange ws.max_row ws.max_column).map
            (fun rc => cellRef rc.1 rc.2) := by
    simp [extract_worksheet_data, sheetFormatting, List.map_map,
      Function.comp]
  refine ⟨?_, hkeys, ?_⟩
  · rw [hkeys]
    exact List.mem_map.mpr ⟨(r, c), (mem_cellRange _ _ _ _).mpr ⟨hr, hc⟩, rfl⟩
  · simp [extract_xls_worksheet_data, xlsFormatting, List.map_map,
      Function.comp]

/-- Witness for C2 (amended): in the 2×2 xlsx fixture, cell B1 is blank —
it fails the cell-list filter — yet its formatting entry exists. -/
theorem C2_formatting_coverage_witness :
    ((1 ≤ 1 ∧ 1 ≤ xlsxSheetFix.max_row)
       ∧ (1 ≤ 2 ∧ 2 ≤ xlsxSheetFix.max_column))
  ∧ keepCell ((xlsxSheetFix.cellAt 1 2).value) = false
  ∧ cellRef 1 2
      ∈ ((extract_worksheet_data xlsxSheetFix true true true).formatting.map
           Prod.fst) :=
  ⟨⟨⟨by decide, by decide⟩, ⟨by decide, by decide⟩⟩, by decide,
   (C2_formatting_coverage xlsxSheetFix xlsSheetFix true true 1 2
     ⟨by decide, by decide⟩ ⟨by decide, by decide⟩).1⟩

/-- C3 counterexample: on the .xls path a formula-typed cell whose cached
value is blank (here the only cell of the 1×1 range) never reaches the
formula check, so the formulas map comes out empty. -/
theorem C3_formulas_counterexample :
    (xlsBlankFormulaSheet.cellAt 0 0).ctype = XlsCellType.formula
  ∧ xlsRange xlsBlankFormulaSheet.nrows xlsBlankFormulaSheet.ncols = [(0, 0)]
  ∧ (extract_xls_worksheet_data xlsBlankFormulaSheet true true true).formulas
      = [] :=
  ⟨rfl, by decide, by decide⟩

/-- C3 amended: with include_formulas=true, on the .xlsx/.xlsm path every
formula-typed cell of the visited range is keyed in the formulas map with
formula and calculated_value fields, independent of the non-blank filter;
on the .xls path this holds only for formula-typed cells that also pass
the non-blank skip. -/
theorem C3_formula_coverage (ws : Worksheet) (f1 f3 : Bool) (r c : Nat)
    (hrc : (r, c) ∈ cellRange ws.max_row ws.max_column)
    (hf : (ws.cellAt r c).data_type = "f")
    (lws : XlsSheet) (lr lc : Nat)
    (hl : (lr, lc) ∈ xlsRange lws.nrows lws.ncols)
    (hltype : (lws.cellAt lr lc).ctype = XlsCellType.formula)
    (hlkeep : xlsSkip (lws.cellAt lr lc).value = false) :
    (cellRef r c,
      ({ formula := (ws.cellAt r c).value,
         calculated_value := get_cell_value (ws.cellAt r c).value } :
        FormulaRecord))
      ∈ (extract_worksheet_data ws f1 true f3).formulas
  ∧ (cellRef (lr + 1) (lc + 1),
      ({ formula :=
           PyVal.str "Formula extraction not fully supported in .xls files",
         calculated_value := (lws.cellAt lr lc).value } : FormulaRecord))
      ∈ (extract_xls_worksheet_data lws f1 true f3).formulas := by
  constructor
  · simp only [extract_worksheet_data, sheetFormulas, if_true]
    refine List.mem_filterMap.mpr ⟨(r, c), hrc, ?_⟩
    simp [hf]
  · have hkept : (lr, lc) ∈ xlsKept lws :=
      List.mem_filter.mpr ⟨hl, by simp [hlkeep]⟩
    simp only [extract_xls_worksheet_data, xlsFormulas, if_true]
    refine List.mem_filterMap.mpr ⟨(lr, lc), hkept, ?_⟩
    simp [hltype]

/-- Witness for C3 (amended): the xlsx fixture's formula cell A1 and the
xls fixture's non-blank formula cell A1 both appear in their formulas
maps. -/
theorem C3_formula_coverage_witness :
    (1, 1) ∈ cellRange xlsxSheetFix.max_row xlsxSheetFix.max_column
  ∧ (xlsxSheetFix.cellAt 1 1).data_type = "f"
  ∧ (0, 0) ∈ xlsRange xlsSheetFix.nrows xlsSheetFix.ncols
  ∧ (xlsSheetFix.cellAt 0 0).ctype = XlsCellType.formula
  ∧ xlsSkip (xlsSheetFix.cellAt 0 0).value = false
  ∧ (cellRef 1 1,
      ({ formula := (xlsxSheetFix.cellAt 1 1).value,
         calculated_value := get_cell_value (xlsxSheetFix.cellAt 1 1).value } :
        FormulaRecord))
      ∈ (extract_worksheet_data xlsxSheetFix true true true).formulas
  ∧ (cellRef (0 + 1) (0 + 1),
      ({ formula :=
           PyVal.str "Formula extraction not fully supported in .xls files",
         calculated_value := (xlsSheetFix.cellAt 0 0).value } : FormulaRecord))
      ∈ (extract_xls_worksheet_data xlsSheetFix true true true).formulas :=
  ⟨by decide, by decide, by decide, by decide, by decide,
   (C3_formula_coverage xlsxSheetFix true true 1 1 (by decide) (by decide)
     xlsSheetFix 0 0 (by decide) (by decide) (by decide)).1,
   (C3_formula_coverage xlsxSheetFix true true 1 1 (by decide) (by decide)
     xlsSheetFix 0 0 (by decide) (by decide) (by decide)).2⟩

/-- C1 counterexample: a read_document tools/call for a file that does not
exist is answered with a JSON-RPC error object (-32603), not a JSON-RPC
success carrying a success:false payload. -/
theorem C1_domain_error_counterexample :
    (envAbsent.pathOf "nofile.xlsx").onDisk = false
  ∧ handle_tools_call envAbsent
      { id := PyVal.none, name := some "read_document",
        arguments := argsOf "nofile.xlsx" }
      = Response.rpcError (some PyVal.none) (-32603)
          "Internal error: File not found: nofile.xlsx" :=
  ⟨rfl, by decide⟩

/-- C1 amended: for read_excel_file and read_word_document, every
domain-level failure — the reader raising on a missing file or
unsupported extension, or the reader returning its success:false dict on
a codec failure — is answered with a JSON-RPC success whose payload is
the {success:false, error, file_path} dict; for read_document, a missing
file or unrecognized extension raises outside any handler try block and
is answered with a JSON-RPC error -32603 instead. -/
theorem C1_domain_error_channels (env : Env) (params : CallParams)
    (hfp : argFalsy params.arguments.file_path = false) :
    (params.name = some "read_excel_file" →
      (∀ e, ExcelReader.read_excel_file (params.arguments.file_path.getD "")
              (env.pathOf (params.arguments.file_path.getD ""))
              (env.xlsxCodec (params.arguments.file_path.getD ""))
              (env.xlsCodec (params.arguments.file_path.getD ""))
              (params.arguments.include_formatting.getD true)
              (params.arguments.include_formulas.getD true)
              (params.arguments.include_validation.getD true)
            = Except.error e →
         handle_tools_call env params
           = Response.success (some params.id)
               (ResultBody.content (ToolPayload.failure (PyExn.str e)
                 (params.arguments.file_path.getD ""))))
      ∧ (∀ e p, ExcelReader.read_excel_file
              (params.arguments.file_path.getD "")
              (env.pathOf (params.arguments.file_path.getD ""))
              (env.xlsxCodec (params.arguments.file_path.getD ""))
              (env.xlsCodec (params.arguments.file_path.getD ""))
              (params.arguments.include_formatting.getD true)
              (params.arguments.include_formulas.getD true)
              (params.arguments.include_validation.getD true)
            = Except.ok (ExcelResult.failed e p) →
         handle_tools_call env params
           = Response.success (some params.id)
               (ResultBody.content (ToolPayload.failure e p))))
  ∧ (params.name = some "read_word_document" →
      (∀ e, WordReader.read_word_document
              (params.arguments.file_path.getD "")
              (env.pathOf (params.arguments.file_path.getD ""))
              (env.wordCodec (params.arguments.file_path.getD ""))
              (params.arguments.include_formatting.getD false)
            = Except.error e →
         handle_tools_call env params
           = Response.success (some params.id)
               (ResultBody.content (ToolPayload.failure (PyExn.str e)
                 (params.arguments.file_path.getD ""))))
      ∧ (∀ e p, WordReader.read_word_document
              (params.arguments.file_path.getD "")
              (env.pathOf (params.arguments.file_path.getD ""))
              (env.wordCodec (params.arguments.file_path.getD ""))
              (params.arguments.include_formatting.getD false)
            = Except.ok (WordResult.failed e p) →
         handle_tools_call env params
           = Response.success (some params.id)
               (ResultBody.content (ToolPayload.failure e p))))
  ∧ (params.name = some "read_document" →
      ((env.pathOf (params.arguments.file_path.getD "")).onDisk = false →
         handle_tools_call env params
           = Response.rpcError (some params.id) (-32603)
               ("Internal error: File not found: "
                 ++ params.arguments.file_path.getD ""))
      ∧ ((env.pathOf (params.arguments.file_path.getD "")).onDisk = true →
         pyLower (env.pathOf (params.arguments.file_path.getD "")).suffix
             ≠ ".docx" →
         pyLower (env.pathOf (params.arguments.file_path.getD "")).suffix
             ≠ ".xlsx" →
         pyLower (env.pathOf (params.arguments.file_path.getD "")).suffix
             ≠ ".xls" →
         pyLower (env.pathOf (params.arguments.file_path.getD "")).suffix
             ≠ ".xlsm" →
         handle_tools_call env params
           = Response.rpcError (some params.id) (-32603)
               ("Internal error: Unsupported file format: "
                 ++ pyLower
                     (env.pathOf (params.arguments.file_path.getD "")).suffix
                 ++ ". Supported formats: ['.docx', '.xlsx', '.xls', '.xlsm']"))) := by
  refine ⟨?_, ?_, ?_⟩
  · intro h
    constructor
    · intro e hE
      simp [handle_tools_call, dispatchTool, h, read_excel_tool, hfp, hE,
        callResponse]
    · intro e p hE
      simp [handle_tools_call, dispatchTool, h, read_excel_tool, hfp, hE,
        callResponse, ofExcelResult]
  · intro h
    constructor
    · intro e hE
      simp [handle_tools_call, dispatchTool, h, read_word_tool, hfp, hE,
        callResponse]
    · intro e p hE
      simp [handle_tools_call, dispatchTool, h, read_word_tool, hfp, hE,
        callResponse, ofWordResult]
  · intro h
    constructor
    · intro h1
      simp [handle_tools_call, dispatchTool, h, read_document_tool, hfp, h1,
        callResponse, PyExn.str]
      rw [← String.append_assoc]
      rfl
    · intro h1 h2 h3 h4 h5
      simp [handle_tools_call, dispatchTool, h, read_document_tool, hfp, h1,
        h2, h3, h4, h5, callResponse, PyExn.str]
      rw [← String.append_assoc, ← String.append_assoc]
      rfl

/-- Witness for C1 (amended): a read_excel_file call for a missing file;
the reader raises FileNotFoundError and the server still answers with a
success envelope holding the success:false dict. -/
theorem C1_domain_error_channels_witness :
    argFalsy (argsOf "nofile.xlsx").file_path = false
  ∧ ExcelReader.read_excel_file "nofile.xlsx" (envAbsent.pathOf "nofile.xlsx")
      (envAbsent.xlsxCodec "nofile.xlsx") (envAbsent.xlsCodec "nofile.xlsx")
      true true true
      = Except.error (PyExn.fileNotFound "File not found: nofile.xlsx")
  ∧ handle_tools_call envAbsent
      { id := PyVal.int 1, name := some "read_excel_file",
        arguments := argsOf "nofile.xlsx" }
      = Response.success (some (PyVal.int 1))
          (ResultBody.content
            (ToolPayload.failure "File not found: nofile.xlsx"
              "nofile.xlsx")) :=
  ⟨rfl, rfl,
   ((C1_domain_error_channels envAbsent
     { id := PyVal.int 1, name := some "read_excel_file",
       arguments := argsOf "nofile.xlsx" } rfl).1 rfl).1
     (PyExn.fileNotFound "File not found: nofile.xlsx") rfl⟩

/-- C8 counterexample: a list_supported_files tools/call for a directory
that does not exist is answered with a JSON-RPC error object (-32603),
not a success envelope reporting the failure. -/
theorem C8_list_files_counterexample :
    (envAbsent.dirOf "/nope").onDisk = false
  ∧ handle_tools_call envAbsent
      { id := PyVal.none, name := some "list_supported_files",
        arguments := argsDir "/nope" }
      = Response.rpcError (some PyVal.none) (-32603)
          "Internal error: Directory not found: /nope" :=
  ⟨rfl, by decide⟩

/-- C8 amended: when the target of list_supported_files does not exist or
is not a directory, the handler raises and the server answers with a
JSON-RPC error -32603 (not a success envelope); the process survives and
the loop goes on with the remaining input lines. -/
theorem C8_list_files_bad_directory (env : Env) (params : CallParams)
    (h : params.name = some "list_supported_files") :
    ((env.dirOf (params.arguments.directory_path.getD ".")).onDisk = false →
       handle_tools_call env params
         = Response.rpcError (some params.id) (-32603)
             ("Internal error: Directory not found: "
               ++ params.arguments.directory_path.getD "."))
  ∧ ((env.dirOf (params.arguments.directory_path.getD ".")).onDisk = true →
     (env.dirOf (params.arguments.directory_path.getD ".")).isDir = false →
       handle_tools_call env params
         = Response.rpcError (some params.id) (-32603)
             ("Internal error: Path is not a directory: "
               ++ params.arguments.directory_path.getD "."))
  ∧ (∀ (rid : PyVal) (rest : List InputLine),
       serverLoop env (InputLine.parsed
           { id := rid, method := some "tools/call", params := params }
           :: rest)
         = handle_request env
             { id := rid, method := some "tools/call", params := params }
           :: serverLoop env rest) := by
  refine ⟨?_, ?_, ?_⟩
  · intro h1
    simp [handle_tools_call, dispatchTool, h, list_supported_files_tool, h1,
      callResponse, PyExn.str]
    rw [← String.append_assoc]
    rfl
  · intro h1 h2
    simp [handle_tools_call, dispatchTool, h, list_supported_files_tool, h1,
      h2, callResponse, PyExn.str]
    rw [← String.append_assoc]
    rfl
  · intro rid rest
    rfl

/-- Witness for C8 (amended): the missing-directory case at a concrete
request. -/
theorem C8_list_files_bad_directory_witness :
    ((some "list_supported_files" : Option String)
        = some "list_supported_files")
  ∧ (envAbsent.dirOf "/nope").onDisk = false
  ∧ handle_tools_call envAbsent
      { id := PyVal.int 9, name := some "list_supported_files",
        arguments := argsDir "/nope" }
      = Response.rpcError (some (PyVal.int 9)) (-32603)
          "Internal error: Directory not found: /nope" :=
  ⟨rfl, rfl,
   (C8_list_files_bad_directory envAbsent
     { id := PyVal.int 9, name := some "list_supported_files",
       arguments := argsDir "/nope" } rfl).1 rfl⟩
